import Mathlib

/-!
Shallow embedding of the docurobot EDI gateway core
(`src/edi/models.py`, `src/edi/services.py`, `src/edi/xml_builder.py`,
`src/edi/poll_docrobot.py`, `src/edi/management/commands/poll_docrobot.py`)
together with proofs settling the spec claims about ingestion
deduplication, delivery retry/backoff, rendering, normalization and
notifications.

Python dictionaries decoded from JSON are modelled by the `Json` type
below; Python `dict.get`, truthiness and `or` are modelled explicitly.
Timestamps are modelled as natural numbers counted in minutes, which is
the unit the backoff logic works in.
-/

namespace Docurobot

/-- A decoded Python/JSON value (the result of `json.loads`, and the shape of
the dictionaries passed around by `services.py`). Numbers are modelled by
integers: the code never computes with them, it only looks them up,
defaults them and stringifies them. -/
inductive Json where
  | null : Json
  | bool : Bool → Json
  | num : Int → Json
  | str : String → Json
  | arr : List Json → Json
  | obj : List (String × Json) → Json
deriving Repr, Inhabited

/-- First binding of a key in an object, `none` for a missing key or a
non-object. -/
def Json.lookup : Json → String → Option Json
  | .obj fields, k => fields.lookup k
  | _, _ => none

/-- Python `d.get(k, default)` on a value already known to be a dict. -/
def Json.getD (j : Json) (k : String) (d : Json) : Json :=
  (j.lookup k).getD d

/-- Is this value a Python dict? -/
def Json.isObj : Json → Bool
  | .obj _ => true
  | _ => false

/-- Python `d.get(k, default)`: raises `AttributeError` when the receiver is
not a dict; such raised exceptions are modelled with `Except.error`. -/
def Json.pyGet (j : Json) (k : String) (d : Json) : Except String Json :=
  match j with
  | .obj _ => .ok (j.getD k d)
  | _ => .error "AttributeError"

/-- Python truthiness of a decoded JSON value. -/
def Json.truthy : Json → Bool
  | .null => false
  | .bool b => b
  | .num n => n != 0
  | .str s => s != ""
  | .arr xs => !xs.isEmpty
  | .obj fs => !fs.isEmpty

/-- Python `a or b` on decoded JSON values. -/
def pyOr (a b : Json) : Json := if a.truthy then a else b

/-- A single-quote character, kept out of string literals. -/
def sq : String := String.singleton (Char.ofNat 39)

/-- Left-to-right non-overlapping replacement over the character list,
with the list length as structural fuel (each step consumes at least one
character, so the fuel never runs out on the initial call). -/
def listReplace (pat rep : List Char) : Nat → List Char → List Char
  | 0, s => s
  | fuel + 1, s =>
    match s with
    | [] => []
    | c :: rest =>
      if !pat.isEmpty && pat.isPrefixOf s then
        rep ++ listReplace pat rep fuel (s.drop pat.length)
      else c :: listReplace pat rep fuel rest

/-- Python `s.replace(pattern, replacement)` for the non-empty literal
patterns the source uses (the placeholder strings); written over
character lists so that it reduces definitionally, unlike
`String.replace`. -/
def pyReplace (s pattern replacement : String) : String :=
  if pattern = "" then s
  else String.mk (listReplace pattern.data replacement.data s.data.length s.data)

mutual
/-- Python `repr` of a decoded JSON value (`str` falls back to it for
containers). String escaping is elided: no claim exercises it. -/
def pyRepr : Json → String
  | .null => "None"
  | .bool true => "True"
  | .bool false => "False"
  | .num n => toString n
  | .str s => sq ++ s ++ sq
  | .arr xs => "[" ++ pyReprList xs ++ "]"
  | .obj fs => "\x7b" ++ pyReprFields fs ++ "\x7d"

def pyReprList : List Json → String
  | [] => ""
  | [x] => pyRepr x
  | x :: xs => pyRepr x ++ ", " ++ pyReprList xs

def pyReprFields : List (String × Json) → String
  | [] => ""
  | [(k, v)] => sq ++ k ++ sq ++ ": " ++ pyRepr v
  | (k, v) :: fs => sq ++ k ++ sq ++ ": " ++ pyRepr v ++ ", " ++ pyReprFields fs
end

/-- Python `str(...)` applied to a decoded JSON value, as done all over
`services.py` and `models.py`. -/
def pyStr : Json → String
  | .null => "None"
  | .bool true => "True"
  | .bool false => "False"
  | .num n => toString n
  | .str s => s
  | .arr xs => "[" ++ pyReprList xs ++ "]"
  | .obj fs => "\x7b" ++ pyReprFields fs ++ "\x7d"

mutual
/-- Python `json.dumps(_, ensure_ascii=False)`, used by
`XmlTemplate.render`. String escaping is elided: no claim exercises it. -/
def dumps : Json → String
  | .null => "null"
  | .bool true => "true"
  | .bool false => "false"
  | .num n => toString n
  | .str s => "\"" ++ s ++ "\""
  | .arr xs => "[" ++ dumpsList xs ++ "]"
  | .obj fs => "\x7b" ++ dumpsFields fs ++ "\x7d"

def dumpsList : List Json → String
  | [] => ""
  | [x] => dumps x
  | x :: xs => dumps x ++ ", " ++ dumpsList xs

def dumpsFields : List (String × Json) → String
  | [] => ""
  | [(k, v)] => "\"" ++ k ++ "\": " ++ dumps v
  | (k, v) :: fs => "\"" ++ k ++ "\": " ++ dumps v ++ ", " ++ dumpsFields fs
end

/-! ## The delivery queue (`edi/models.py`, class `SendQueue`) -/

def STATUS_PENDING : String := "pending"
def STATUS_SENDING : String := "sending"
def STATUS_SENT : String := "sent"
def STATUS_ERROR : String := "error"
def STATUS_FAILED : String := "failed"

/-- One `SendQueue` row. Field defaults mirror the Django field defaults
(`status=pending`, `attempts=0`, nullable timestamps). Times are minutes. -/
structure SendQueue where
  status : String := STATUS_PENDING
  attempts : Nat := 0
  last_error : String := ""
  response : String := ""
  http_status : Option Nat := none
  sent_at : Option Nat := none
  next_retry : Option Nat := none
deriving Repr, DecidableEq

/-- `SendQueue.mark_sent` (models.py lines 85-91): transition to `sent`,
record response, HTTP code and `sent_at = now`, clear `last_error`.
`attempts` is not touched. -/
def SendQueue.mark_sent (q : SendQueue) (response_text : String) (http_code : Nat)
    (now : Nat) : SendQueue :=
  { q with
    status := STATUS_SENT
    response := response_text
    http_status := some http_code
    sent_at := some now
    last_error := "" }

/-- `SendQueue.mark_error` (models.py lines 93-105): increment `attempts`;
at `max_retries` go terminal (`failed`), otherwise go to `error` and set
`next_retry = now + min(60, 2 ** attempts)` minutes. -/
def SendQueue.mark_error (q : SendQueue) (error : String) (http_code : Option Nat)
    (max_retries : Nat) (now : Nat) : SendQueue :=
  let attempts := q.attempts + 1
  if attempts ≥ max_retries then
    { q with
      attempts := attempts
      last_error := error
      http_status := http_code
      status := STATUS_FAILED }
  else
    { q with
      attempts := attempts
      last_error := error
      http_status := http_code
      status := STATUS_ERROR
      next_retry := some (now + min 60 (2 ^ attempts)) }

/-- The due-work predicate of `Command._process_queue`
(`edi/poll_docrobot.py` lines 133-136): `pending` rows with no
`next_retry`, plus `error` rows whose `next_retry` has passed. A NULL
`next_retry` does not satisfy the `lte` filter. -/
def isDue (now : Nat) (q : SendQueue) : Bool :=
  (q.status == STATUS_PENDING && q.next_retry == none) ||
  (q.status == STATUS_ERROR &&
    match q.next_retry with
    | some t => t ≤ now
    | none => false)

/-- The selection made by one `_process_queue` cycle: the due rows,
capped at 20 per cycle (`[:20]`). -/
def selectDue (now : Nat) (qs : List SendQueue) : List SendQueue :=
  (qs.filter (fun q => isDue now q)).take 20

/-- The queue row after `k` consecutive failures of a freshly created
entry, the `k`-th failure happening at time `times k`; each failure calls
`SendQueue.mark_error`. -/
def consecutiveFailures (max_retries : Nat) (times : Nat → Nat) : Nat → SendQueue
  | 0 => {}
  | k + 1 =>
    (consecutiveFailures max_retries times k).mark_error "err" none max_retries (times (k + 1))

/-! ## The schema normalizer (`edi/services.py`, `DocrobotClient.normalize_document`) -/

/-- One normalized line item, as built by the position loop of
`normalize_document` (services.py lines 222-235). Fields that the source
passes through `str(...)` are `String`; the rest keep the raw decoded
value. -/
structure Position where
  ean : String
  itemCode : String
  itemName : Json
  quantity : Json
  unitPrice : Json
  vat : Json
  amount : Json
  amountWithVat : Json
  unit : Json
  positionNumber : Json
deriving Repr, Inhabited

/-- The body of the position loop of `normalize_document`
(services.py lines 222-235). `p.get` raises on a non-dict element, hence
the `Except`. -/
def normalizePosition (p : Json) : Except String Position := do
  let char := pyOr (← p.pyGet "CHARACTERISTIC" (.obj [])) (.obj [])
  let product ← p.pyGet "PRODUCT" (.str "")
  let priceDefault ← p.pyGet "PRICEWITHVAT" (.num 0)
  pure {
    ean := pyStr product
    itemCode := pyStr product
    itemName := if char.isObj then char.getD "DESCRIPTION" (.str "") else .str ""
    quantity := (← p.pyGet "ORDEREDQUANTITY" (.num 0))
    unitPrice := (← p.pyGet "ORDERPRICE" priceDefault)
    vat := (← p.pyGet "VAT" (.num 0))
    amount := (← p.pyGet "AMOUNT" (.num 0))
    amountWithVat := (← p.pyGet "AMOUNTWITHVAT" (.num 0))
    unit := (← p.pyGet "ORDERUNIT" (.str "шт"))
    positionNumber := (← p.pyGet "POSITIONNUMBER" (.num 0))
  }

/-- The normalized document dictionary returned by `normalize_document`
(services.py lines 249-267). Fields the source wraps in `str(...)` are
`String`; the rest keep the raw decoded value. -/
structure NormalizedDoc where
  docrobotId : String
  docType : String
  number : String
  date : String
  deliveryDate : String
  shipmentDate : String
  currency : String
  supplierGln : String
  buyerGln : String
  supplierName : Json
  buyerName : Json
  deliveryAddress : Json
  totalAmount : Json
  totalVat : Json
  totalWithVat : Json
  positions : List Position
  raw : Json
deriving Repr, Inhabited

/-- The `POSITION` extraction and loop of `normalize_document`
(services.py lines 220-235): take `head['POSITION']` when `head` is a
dict (defaulting to `[]`), iterate it when it is a list, and normalize
each element. -/
def normalize_positions (head : Json) : Except String (List Position) :=
  let positions_raw := if head.isObj then head.getD "POSITION" (.arr []) else .arr []
  let plist := match positions_raw with | .arr xs => xs | _ => []
  plist.mapM normalizePosition

/-- The tail of `normalize_document` (services.py lines 203 and 220-267)
once `doc_body` and `head` have been extracted: the id line, the position
loop, the GLN/INFO extraction and the result dictionary. Every `.get` on
a possibly non-dict receiver is `pyGet` and may raise. -/
def normalize_withHead (raw doc_body head : Json) (doc_type : String) :
    Except String NormalizedDoc := do
  let doc_id := pyStr
    (pyOr (pyOr (← raw.pyGet "documentId" .null) (← raw.pyGet "id" .null)) (.str ""))
  let positions ← normalize_positions head
  let supplier_gln := if head.isObj then pyStr (head.getD "SUPPLIER" (.str "")) else ""
  let buyer_gln := if head.isObj then pyStr (head.getD "BUYER" (.str "")) else ""
  let supplier_info :=
    if head.isObj then pyOr (head.getD "SUPPLIER_INFO" (.obj [])) (.obj []) else .obj []
  let buyer_info :=
    if head.isObj then pyOr (head.getD "BUYER_INFO" (.obj [])) (.obj []) else .obj []
  let delivery_info :=
    if head.isObj then pyOr (head.getD "DELIVERYPLACE_INFO" (.obj [])) (.obj []) else .obj []
  let supplierName ← supplier_info.pyGet "полноеНазвание"
    (← supplier_info.pyGet "краткоеНазвание" (.str ""))
  let buyerName ← buyer_info.pyGet "полноеНазвание"
    (← buyer_info.pyGet "краткоеНазвание" (.str ""))
  let deliveryAddress ← delivery_info.pyGet "Адрес" (.str "")
  pure {
    docrobotId := doc_id
    docType := doc_type
    number := pyStr (if doc_body.isObj then doc_body.getD "NUMBER" (.str "") else .str "")
    date := pyStr (if doc_body.isObj then doc_body.getD "DATE" (.str "") else .str "")
    deliveryDate :=
      pyStr (if doc_body.isObj then doc_body.getD "DELIVERYDATE" (.str "") else .str "")
    shipmentDate :=
      pyStr (if doc_body.isObj then doc_body.getD "SHIPMENTDATE" (.str "") else .str "")
    currency :=
      pyStr (if doc_body.isObj then doc_body.getD "CURRENCY" (.str "KZT") else .str "KZT")
    supplierGln := supplier_gln
    buyerGln := buyer_gln
    supplierName := supplierName
    buyerName := buyerName
    deliveryAddress := deliveryAddress
    totalAmount := if doc_body.isObj then doc_body.getD "AMOUNT" (.num 0) else .num 0
    totalVat := if doc_body.isObj then doc_body.getD "VATAMOUNT" (.num 0) else .num 0
    totalWithVat := if doc_body.isObj then doc_body.getD "AMOUNTWITHVAT" (.num 0) else .num 0
    positions := positions
    raw := raw
  }

/-- Lines 216-217 of `normalize_document`:
`doc_body = content_data.get(doc_type, content_data)` (raising when
`content_data` is not a dict) and the guarded `head` extraction: the
HEAD entry of `doc_body` defaulting to the empty dict when `doc_body` is
a dict, the empty dict otherwise. -/
def normalize_decoded (raw content_data : Json) (doc_type : String) :
    Except String NormalizedDoc := do
  let doc_body ← content_data.pyGet doc_type content_data
  let head := if doc_body.isObj then doc_body.getD "HEAD" (.obj []) else .obj []
  normalize_withHead raw doc_body head doc_type

/-- `DocrobotClient.normalize_document` (services.py lines 194-267).
`decode` stands for the `base64.b64decode` + `json.loads` pipeline of
lines 209-213; it returns `none` when that pipeline raises, in which case
the source leaves `content_data = \x7b\x7d`. A truthy non-string `content`
also raises inside the same `try` and likewise leaves the empty dict.
(The `doc_id` line of the source runs before the decode; both only raise
when `raw` is not a dict, so folding it into `normalize_withHead` keeps
the observable behaviour.) -/
def normalize_document (decode : String → Option Json) (raw : Json)
    (doc_type : String) : Except String NormalizedDoc := do
  let content_b64 ← raw.pyGet "content" (.str "")
  let content_data :=
    if content_b64.truthy then
      match content_b64 with
      | .str s => (decode s).getD (.obj [])
      | _ => .obj []
    else .obj []
  normalize_decoded raw content_data doc_type

/-- The quantity fallback exactly as the spec words it: `orderedQuantity`,
else `deliveredQuantity`, else 0. Stated only to compare against the
implementation. -/
def specQuantity (p : Json) : Json :=
  p.getD "ORDEREDQUANTITY" (p.getD "DELIVEREDQUANTITY" (.num 0))

/-! ## The wire codec (`edi/models.py` `XmlTemplate.render`, `edi/xml_builder.py`) -/

/-- One `XmlTemplate` row (models.py lines 139-197). -/
structure XmlTemplate where
  doc_type : String
  name : String := ""
  position_tpl : String := ""
  body_tpl : String
  content_type : String := "application/xml; charset=utf-8"
  is_active : Bool := true
deriving Repr, DecidableEq

/-- The body of the position loop of `XmlTemplate.render`
(models.py lines 211-221), for the 1-based index `i`. Raises when the
position is not a dict. -/
def renderPositionLine (position_tpl : String) (i : Nat) (p : Json) :
    Except String String := do
  let ean ← p.pyGet "ean" (.str "")
  let itemCode ← p.pyGet "itemCode" (.str "")
  let itemName ← p.pyGet "itemName" (.str "")
  let quantity ← p.pyGet "quantity" (.num 0)
  let unitPrice ← p.pyGet "unitPrice" (.num 0)
  let vat ← p.pyGet "vat" (.num 0)
  let amount ← p.pyGet "amount" (.num 0)
  let amountWithVat ← p.pyGet "amountWithVat" (.num 0)
  let line := position_tpl
  let line := pyReplace line "\x7b\x7bline\x7d\x7d" (toString i)
  let line := pyReplace line "\x7b\x7bean\x7d\x7d" (pyStr ean)
  let line := pyReplace line "\x7b\x7bitem_code\x7d\x7d" (pyStr itemCode)
  let line := pyReplace line "\x7b\x7bitem_name\x7d\x7d" (pyStr itemName)
  let line := pyReplace line "\x7b\x7bquantity\x7d\x7d" (pyStr quantity)
  let line := pyReplace line "\x7b\x7bunit_price\x7d\x7d" (pyStr unitPrice)
  let line := pyReplace line "\x7b\x7bvat\x7d\x7d" (pyStr vat)
  let line := pyReplace line "\x7b\x7bamount\x7d\x7d" (pyStr amount)
  let line := pyReplace line "\x7b\x7bamount_with_vat\x7d\x7d" (pyStr amountWithVat)
  pure line

/-- `enumerate(..., start=i)` over the positions of
`XmlTemplate.render`. -/
def renderPositionLines (position_tpl : String) : Nat → List Json → Except String (List String)
  | _, [] => pure []
  | i, p :: ps => do
    let l ← renderPositionLine position_tpl i p
    let rest ← renderPositionLines position_tpl (i + 1) ps
    pure (l :: rest)

/-- `XmlTemplate.render` (models.py lines 199-241): plain string
substitution of the enumerated placeholders. Every `doc_data.get` in the
source raises `AttributeError` when `doc_data` is not a dict, which the
up-front guard models; iterating a non-list `positions` value is modelled
as an error as well. -/
def XmlTemplate.render (tpl : XmlTemplate) (doc_data : Json) : Except String String := do
  if !doc_data.isObj then throw "AttributeError" else
  let positions_xml ←
    if tpl.position_tpl != "" then
      match doc_data.getD "positions" (.arr []) with
      | .arr ps => do
        let lines ← renderPositionLines tpl.position_tpl 1 ps
        pure (String.intercalate "\n" lines)
      | _ => throw "TypeError"
    else pure ""
  let result := tpl.body_tpl
  let result := pyReplace result "\x7b\x7bnumber\x7d\x7d" (pyStr (doc_data.getD "number" (.str "")))
  let result := pyReplace result "\x7b\x7bdate\x7d\x7d" (pyStr (doc_data.getD "date" (.str "")))
  let result := pyReplace result "\x7b\x7bdelivery_date\x7d\x7d"
    (pyStr (doc_data.getD "deliveryDate" (.str "")))
  let result := pyReplace result "\x7b\x7bsupplier_gln\x7d\x7d"
    (pyStr (doc_data.getD "supplierGln" (.str "")))
  let result := pyReplace result "\x7b\x7bsupplier_name\x7d\x7d"
    (pyStr (doc_data.getD "supplierName" (.str "")))
  let result := pyReplace result "\x7b\x7bbuyer_gln\x7d\x7d"
    (pyStr (doc_data.getD "buyerGln" (.str "")))
  let result := pyReplace result "\x7b\x7bbuyer_name\x7d\x7d"
    (pyStr (doc_data.getD "buyerName" (.str "")))
  let result := pyReplace result "\x7b\x7bcurrency\x7d\x7d"
    (pyStr (doc_data.getD "currency" (.str "KZT")))
  let result := pyReplace result "\x7b\x7border_number\x7d\x7d"
    (pyStr (doc_data.getD "orderNumber" (.str "")))
  let result := pyReplace result "\x7b\x7bshipment_date\x7d\x7d"
    (pyStr (doc_data.getD "shipmentDate" (.str "")))
  let result := pyReplace result "\x7b\x7btotal_amount\x7d\x7d"
    (pyStr (doc_data.getD "totalAmount" (.num 0)))
  let result := pyReplace result "\x7b\x7btotal_vat\x7d\x7d"
    (pyStr (doc_data.getD "totalVat" (.num 0)))
  let result := pyReplace result "\x7b\x7btotal_with_vat\x7d\x7d"
    (pyStr (doc_data.getD "totalWithVat" (.num 0)))
  let result := pyReplace result "\x7b\x7bpositions\x7d\x7d" positions_xml
  let result := pyReplace result "\x7b\x7bpositions_json\x7d\x7d"
    (dumps (doc_data.getD "positions" (.arr [])))
  let result := pyReplace result "\x7b\x7braw_json\x7d\x7d" (dumps doc_data)
  pure result

/-- XML text escaping performed by lxml on element text. -/
def xmlEscape (s : String) : String :=
  pyReplace (pyReplace (pyReplace s "&" "&amp;") "<" "&lt;") ">" "&gt;"

/-- The declaration line `etree.tostring(..., xml_declaration=True)` emits. -/
def xmlDecl : String :=
  "<?xml version=" ++ sq ++ "1.0" ++ sq ++ " encoding=" ++ sq ++ "UTF-8" ++ sq ++ "?>\n"

/-- A pretty-printed element carrying only text. -/
def leafEl (ind tag text : String) : String :=
  ind ++ "<" ++ tag ++ ">" ++ xmlEscape text ++ "</" ++ tag ++ ">\n"

/-- Assigning a value to an lxml `.text` slot: raises `TypeError` for
anything but a string. -/
def pyText (v : Json) : Except String String :=
  match v with
  | .str s => .ok s
  | _ => .error "TypeError"

/-- `_root` of `xml_builder.py` (lines 20-30) rendered to text: the
document header shared by all five default builders. `today` stands for
`str(date.today())`. -/
def rootOpen (msg_type : String) (doc_id supplier_gln buyer_gln doc_date : Json)
    (today : String) : Except String String := do
  let idText ← pyText doc_id
  let dateText ← pyText (pyOr doc_date (.str today))
  let supText ← pyText supplier_gln
  let buyText ← pyText buyer_gln
  pure (xmlDecl ++ "<Document>\n"
    ++ leafEl "  " "DocumentType" msg_type
    ++ leafEl "  " "DocumentId" idText
    ++ leafEl "  " "DocumentDate" dateText
    ++ "  <Parties>\n"
    ++ "    <Supplier>\n" ++ leafEl "      " "GLN" supText ++ "    </Supplier>\n"
    ++ "    <Buyer>\n" ++ leafEl "      " "GLN" buyText ++ "    </Buyer>\n"
    ++ "  </Parties>\n")

/-- The `<Line>` elements built by `_positions` (xml_builder.py lines
32-44); all values go through `str(...)`. -/
def positionLines : Nat → List Json → Except String String
  | _, [] => pure ""
  | i, p :: ps => do
    let ean ← p.pyGet "ean" (.str "")
    let itemCode ← p.pyGet "itemCode" (.str "")
    let itemName ← p.pyGet "itemName" (.str "")
    let quantity ← p.pyGet "quantity" (.num 0)
    let unitPrice ← p.pyGet "unitPrice" (.num 0)
    let vat ← p.pyGet "vat" (.num 0)
    let amount ← p.pyGet "amount" (.num 0)
    let amountWithVat ← p.pyGet "amountWithVat" (.num 0)
    let rest ← positionLines (i + 1) ps
    pure ("    <Line>\n"
      ++ leafEl "      " "LineNumber" (toString i)
      ++ leafEl "      " "EAN" (pyStr ean)
      ++ leafEl "      " "ItemCode" (pyStr itemCode)
      ++ leafEl "      " "ItemName" (pyStr itemName)
      ++ leafEl "      " "Quantity" (pyStr quantity)
      ++ leafEl "      " "UnitPrice" (pyStr unitPrice)
      ++ leafEl "      " "VAT" (pyStr vat)
      ++ leafEl "      " "Amount" (pyStr amount)
      ++ leafEl "      " "AmountWithVAT" (pyStr amountWithVat)
      ++ "    </Line>\n" ++ rest)

/-- The `<Lines>` block of `_positions`; iterating a non-list value is
modelled as an error. -/
def positionsBlock (positions : Json) : Except String String :=
  match positions with
  | .arr [] => .ok "  <Lines/>\n"
  | .arr ps => do
    let lines ← positionLines 1 ps
    pure ("  <Lines>\n" ++ lines ++ "  </Lines>\n")
  | _ => .error "TypeError"

/-- `_default_order` (xml_builder.py lines 46-52). -/
def default_order (d : Json) (today : String) : Except String String := do
  if !d.isObj then throw "AttributeError" else
  let hdr ← rootOpen "ORDER" (d.getD "number" (.str "")) (d.getD "supplierGln" (.str ""))
    (d.getD "buyerGln" (.str "")) (d.getD "date" (.str "")) today
  let deliveryDate ← pyText (d.getD "deliveryDate" (.str ""))
  let deliveryPlace ← pyText (d.getD "deliveryPlace" (.str ""))
  let currency ← pyText (d.getD "currency" (.str "KZT"))
  let pos ← positionsBlock (d.getD "positions" (.arr []))
  pure (hdr ++ leafEl "  " "DeliveryDate" deliveryDate
    ++ leafEl "  " "DeliveryPlace" deliveryPlace
    ++ leafEl "  " "Currency" currency ++ pos ++ "</Document>\n")

/-- `_default_ordrsp` (xml_builder.py lines 54-59). -/
def default_ordrsp (d : Json) (today : String) : Except String String := do
  if !d.isObj then throw "AttributeError" else
  let hdr ← rootOpen "ORDRSP" (d.getD "number" (.str "")) (d.getD "supplierGln" (.str ""))
    (d.getD "buyerGln" (.str "")) (d.getD "date" (.str "")) today
  let orderNumber ← pyText (d.getD "orderNumber" (.str ""))
  let pos ← positionsBlock (d.getD "positions" (.arr []))
  pure (hdr ++ leafEl "  " "OrderNumber" orderNumber
    ++ leafEl "  " "ConfirmationStatus" (pyStr (d.getD "confirmationStatus" (.num 29)))
    ++ pos ++ "</Document>\n")

/-- `_default_desadv` (xml_builder.py lines 61-67). -/
def default_desadv (d : Json) (today : String) : Except String String := do
  if !d.isObj then throw "AttributeError" else
  let hdr ← rootOpen "DESADV" (d.getD "number" (.str "")) (d.getD "supplierGln" (.str ""))
    (d.getD "buyerGln" (.str "")) (d.getD "date" (.str "")) today
  let orderNumber ← pyText (d.getD "orderNumber" (.str ""))
  let shipmentDate ← pyText (d.getD "shipmentDate" (.str ""))
  let transportDoc ← pyText (d.getD "transportDoc" (.str ""))
  let pos ← positionsBlock (d.getD "positions" (.arr []))
  pure (hdr ++ leafEl "  " "OrderNumber" orderNumber
    ++ leafEl "  " "ShipmentDate" shipmentDate
    ++ leafEl "  " "TransportDocNumber" transportDoc ++ pos ++ "</Document>\n")

/-- `_default_invoice` (xml_builder.py lines 69-77). -/
def default_invoice (d : Json) (today : String) : Except String String := do
  if !d.isObj then throw "AttributeError" else
  let hdr ← rootOpen "INVOICE" (d.getD "number" (.str "")) (d.getD "supplierGln" (.str ""))
    (d.getD "buyerGln" (.str "")) (d.getD "date" (.str "")) today
  let orderNumber ← pyText (d.getD "orderNumber" (.str ""))
  let currency ← pyText (d.getD "currency" (.str "KZT"))
  let pos ← positionsBlock (d.getD "positions" (.arr []))
  pure (hdr ++ leafEl "  " "OrderNumber" orderNumber
    ++ leafEl "  " "TotalAmount" (pyStr (d.getD "totalAmount" (.num 0)))
    ++ leafEl "  " "TotalVAT" (pyStr (d.getD "totalVat" (.num 0)))
    ++ leafEl "  " "TotalWithVAT" (pyStr (d.getD "totalWithVat" (.num 0)))
    ++ leafEl "  " "Currency" currency ++ pos ++ "</Document>\n")

/-- `_default_pricat` (xml_builder.py lines 79-85). -/
def default_pricat (d : Json) (today : String) : Except String String := do
  if !d.isObj then throw "AttributeError" else
  let hdr ← rootOpen "PRICAT" (d.getD "number" (.str "")) (d.getD "supplierGln" (.str ""))
    (d.getD "buyerGln" (.str "")) (d.getD "date" (.str "")) today
  let validFrom ← pyText (d.getD "validFrom" (.str ""))
  let validTo ← pyText (d.getD "validTo" (.str ""))
  let currency ← pyText (d.getD "currency" (.str "KZT"))
  let pos ← positionsBlock (d.getD "positions" (.arr []))
  pure (hdr ++ leafEl "  " "ValidFrom" validFrom
    ++ leafEl "  " "ValidTo" validTo
    ++ leafEl "  " "Currency" currency ++ pos ++ "</Document>\n")

/-- `_DEFAULT_BUILDERS` dispatch plus the `ValueError` for an unknown
type (xml_builder.py lines 87-93 and 117-120). -/
def defaultBuild (doc_type : String) (data : Json) (today : String) : Except String String :=
  match doc_type with
  | "ORDER" => default_order data today
  | "ORDRSP" => default_ordrsp data today
  | "DESADV" => default_desadv data today
  | "INVOICE" => default_invoice data today
  | "PRICAT" => default_pricat data today
  | _ => .error ("ValueError: Неизвестный тип документа: " ++ doc_type)

/-- `build_xml` (xml_builder.py lines 100-120): the first active template
for the type wins; the template lookup and the render call sit inside a
`try` whose handler falls through to the default builder, so a raising
render also ends in the default builder. -/
def build_xml (templates : List XmlTemplate) (doc_type : String) (data : Json)
    (today : String) : Except String String :=
  match templates.find? (fun t => t.doc_type == doc_type && t.is_active) with
  | some tpl =>
    match tpl.render data with
    | .ok rendered => .ok rendered
    | .error _ => defaultBuild doc_type data today
  | none => defaultBuild doc_type data today

/-! ## Documents, delivery processing and ingestion
(`edi/models.py` `EdiDocument`, `edi/services.py` `process_document`,
`edi/management/commands/poll_docrobot.py` `Command._poll_cycle`) -/

/-- One `EdiDocument` row (models.py lines 13-43). -/
structure EdiDocumentRow where
  docrobot_id : String
  doc_type : String := ""
  number : String := ""
  doc_date : Option String := none
  supplier_gln : String := ""
  buyer_gln : String := ""
  supplier_name : Json := .str ""
  buyer_name : Json := .str ""
  raw_json : Json := .obj []
  xml_content : String := ""
deriving Repr, Inhabited

/-- One Telegram message sent by `TelegramNotifier` (services.py lines
323-337): `errorNote` carries (doc type, document number, error text) as
`TelegramNotifier.error` does, `failedNote` carries (doc type, document
number, attempt count) as `TelegramNotifier.failed` does. The channel
itself is fire-and-forget: `TelegramNotifier.send` swallows every
transport exception, so a message is pure data here. -/
inductive Notice where
  | errorNote (doc_type doc_number errtext : String)
  | failedNote (doc_type doc_number : String) (attempts : Nat)
deriving Repr, DecidableEq

/-- The observable outcome of one `process_document` call: the (possibly
updated) document row and queue row, the Telegram messages sent, whether
`build_xml` was invoked during this call, the payload handed to the 1C
sink (when a send was attempted), and the returned boolean. -/
structure ProcResult where
  doc : EdiDocumentRow
  entry : SendQueue
  notices : List Notice
  rendered : Bool
  sent_payload : Option String
  success : Bool
deriving Repr

/-- `process_document` (services.py lines 344-401). `send` stands for
`OneCClient.send` over the network: it gets the XML payload and the
document type and either returns `(status, body)` or raises. -/
def process_document (templates : List XmlTemplate)
    (send : String → String → Except String (Nat × String))
    (max_retries : Nat) (now : Nat) (today : String)
    (doc : EdiDocumentRow) (q : SendQueue) : ProcResult :=
  -- `if not doc.xml_content:` — render and cache only when nothing is cached
  let step1 : Except (SendQueue × String) (EdiDocumentRow × Bool) :=
    if doc.xml_content = "" then
      match build_xml templates doc.doc_type doc.raw_json today with
      | .error e =>
        .error (q.mark_error ("Ошибка генерации XML: " ++ e) none max_retries now, e)
      | .ok xml => .ok ({ doc with xml_content := xml }, true)
    else .ok (doc, false)
  match step1 with
  | .error (qe, _) =>
    { doc := doc, entry := qe, notices := [], rendered := true,
      sent_payload := none, success := false }
  | .ok (d, rendered) =>
    match send d.xml_content d.doc_type with
    | .error e =>
      let msg := "Сетевая ошибка: " ++ e
      { doc := d
        entry := q.mark_error msg none max_retries now
        notices := [.errorNote d.doc_type d.number msg]
        rendered := rendered
        sent_payload := some d.xml_content
        success := false }
    | .ok (http_code, response) =>
      if 200 ≤ http_code ∧ http_code < 300 then
        { doc := d, entry := q.mark_sent response http_code now, notices := [],
          rendered := rendered, sent_payload := some d.xml_content, success := true }
      else
        let msg := "HTTP " ++ toString http_code ++ ": " ++ response.take 300
        let qe := q.mark_error msg (some http_code) max_retries now
        { doc := d
          entry := qe
          notices :=
            if qe.status == STATUS_FAILED then
              [.failedNote d.doc_type d.number qe.attempts]
            else [.errorNote d.doc_type d.number msg]
          rendered := rendered
          sent_payload := some d.xml_content
          success := false }

/-- A document row paired with its queue entry; `_poll_cycle` creates
the two together (`EdiDocument.objects.create` + `SendQueue.objects.create`). -/
structure DbRow where
  doc : EdiDocumentRow
  entry : SendQueue
deriving Repr

/-- The `EdiDocument` created at lines 83-93 of
`management/commands/poll_docrobot.py`; `doc_date` is
`normalized['date'] or None`. -/
def mkDocRow (n : NormalizedDoc) : EdiDocumentRow :=
  { docrobot_id := n.docrobotId
    doc_type := n.docType
    number := n.number
    doc_date := if n.date = "" then none else some n.date
    supplier_gln := n.supplierGln
    buyer_gln := n.buyerGln
    supplier_name := n.supplierName
    buyer_name := n.buyerName
    raw_json := n.raw
    xml_content := "" }

/-- The per-item body of `Command._poll_cycle`
(management/commands/poll_docrobot.py lines 75-96): skip when the id is
empty or a row with this `docrobot_id` already exists (the `unique=True`
column of models.py line 25), otherwise create the document row together
with a fresh queue entry. -/
def poll_ingest_one (db : List DbRow) (n : NormalizedDoc) : List DbRow :=
  if n.docrobotId = "" || db.any (fun r => r.doc.docrobot_id == n.docrobotId) then db
  else db ++ [⟨mkDocRow n, {}⟩]

/-- The ingestion loop of `_poll_cycle` over one fetched batch. -/
def poll_cycle (db : List DbRow) (batch : List NormalizedDoc) : List DbRow :=
  batch.foldl poll_ingest_one db

/-- Number of stored rows (document + queue entry pairs) carrying the
given external id. -/
def countId (db : List DbRow) (id : String) : Nat :=
  (db.filter (fun r => r.doc.docrobot_id == id)).length

/-! ## The upstream connector (`edi/services.py`, `DocrobotClient._get`) -/

/-- The observable outcome of one `DocrobotClient._get` call
(services.py lines 157-183): how many HTTP GETs were issued, how many
token fetches (`_get_token` hitting `/api/v1/auth`) happened, the cached
token afterwards, and the result (final status code, or the propagated
exception). -/
structure GetOutcome where
  gets : Nat
  token_fetches : Nat
  token : Option Nat
  result : Except String Nat
deriving Repr

/-- One iteration of the retry loop of `_get`: `_headers()` fetches a
token when none is cached, the GET is issued, on a 401 the token is
reset and refreshed and the same URL is retried exactly once, then
`raise_for_status()` raises for any status ≥ 400. `oracle i` is the
status of the `i`-th GET issued by the call (`none` = network-level
exception from `requests.get`); the auth endpoint is modelled as always
succeeding and handing out the fresh token numbered by the fetch
counter `tc`. Returns the next GET index, the cached token, the fetch
count and the iteration's outcome. -/
def getAttempt (oracle : Nat → Option Nat) (gi : Nat) (token : Option Nat) (tc : Nat) :
    Nat × Option Nat × Nat × Except String Nat :=
  let (tok, tc) := match token with
    | some t => (t, tc)
    | none => (tc, tc + 1)
  match oracle gi with
  | none => (gi + 1, some tok, tc, .error "network")
  | some code =>
    if code = 401 then
      let tok2 := tc
      let tc := tc + 1
      match oracle (gi + 1) with
      | none => (gi + 2, some tok2, tc, .error "network")
      | some code2 =>
        if 400 ≤ code2 then (gi + 2, some tok2, tc, .error ("HTTP " ++ toString code2))
        else (gi + 2, some tok2, tc, .ok code2)
    else if 400 ≤ code then (gi + 1, some tok, tc, .error ("HTTP " ++ toString code))
    else (gi + 1, some tok, tc, .ok code)

/-- The `for attempt in range(retries)` loop of `_get`: a successful
iteration returns at once, a raising iteration stores the exception and
retries (after a 3s sleep) until the bound is exhausted, after which the
last exception is re-raised. -/
def getLoop (oracle : Nat → Option Nat) :
    Nat → Nat → Option Nat → Nat → Except String Nat → GetOutcome
  | 0, gi, token, tc, last => ⟨gi, tc, token, last⟩
  | fuel + 1, gi, token, tc, _ =>
    match getAttempt oracle gi token tc with
    | (gi2, tok2, tc2, .ok code) => ⟨gi2, tc2, tok2, .ok code⟩
    | (gi2, tok2, tc2, .error e) => getLoop oracle fuel gi2 tok2 tc2 (.error e)

/-- `DocrobotClient._get` with the default `retries=3`, entered with the
client's cached token state. -/
def docrobotGet (oracle : Nat → Option Nat) (token : Option Nat) (tc : Nat) : GetOutcome :=
  getLoop oracle 3 0 token tc (.error "no attempt")

/-! ## Helper lemmas -/

theorem mark_error_attempts (q : SendQueue) (e : String) (hc : Option Nat)
    (mr now : Nat) : (q.mark_error e hc mr now).attempts = q.attempts + 1 := by
  simp only [SendQueue.mark_error]
  split <;> rfl

theorem mark_error_failed_status (q : SendQueue) (e : String) (hc : Option Nat)
    (mr now : Nat) (h : mr ≤ q.attempts + 1) :
    (q.mark_error e hc mr now).status = STATUS_FAILED := by
  unfold SendQueue.mark_error
  rw [if_pos h]

theorem mark_error_below_cutoff (q : SendQueue) (e : String) (hc : Option Nat)
    (mr now : Nat) (h : q.attempts + 1 < mr) :
    (q.mark_error e hc mr now).status = STATUS_ERROR ∧
    (q.mark_error e hc mr now).next_retry = some (now + min 60 (2 ^ (q.attempts + 1))) := by
  unfold SendQueue.mark_error
  rw [if_neg (Nat.not_le.mpr h)]
  exact ⟨rfl, rfl⟩

theorem isDue_false_of_status (t : Nat) (q : SendQueue)
    (hp : (q.status == STATUS_PENDING) = false)
    (he : (q.status == STATUS_ERROR) = false) : isDue t q = false := by
  simp [isDue, hp, he]

theorem not_mem_selectDue_of_not_due (q : SendQueue) (h : ∀ t, isDue t q = false)
    (t : Nat) (qs : List SendQueue) : q ∉ selectDue t qs := by
  intro hmem
  have h1 : q ∈ qs.filter (fun x => isDue t x) := List.take_subset _ _ hmem
  have h2 := (List.mem_filter.mp h1).2
  rw [h t] at h2
  exact absurd h2 (by decide)

theorem consecutiveFailures_attempts (mr : Nat) (times : Nat → Nat) (k : Nat) :
    (consecutiveFailures mr times k).attempts = k := by
  induction k with
  | zero => rfl
  | succ k ih =>
    unfold consecutiveFailures
    rw [mark_error_attempts, ih]

/-! ## Claims about the delivery queue -/

/-- C2: marking a non-terminal failure increments `attempts` and sets
`next_retry = now + min(60, 2 ** attempts)` minutes with `attempts`
counted after the increment; over consecutive failures of a fresh entry
the `k`-th failure schedules a delay of `min(60, 2 ** k)` minutes, so the
delay sequence is 2, 4, 8, ... minutes, non-decreasing and capped at 60
minutes. -/
theorem backoff_formula (q : SendQueue) (e : String) (hc : Option Nat)
    (mr now : Nat) (h : q.attempts + 1 < mr) :
    ((q.mark_error e hc mr now).status = STATUS_ERROR ∧
     (q.mark_error e hc mr now).attempts = q.attempts + 1 ∧
     (q.mark_error e hc mr now).next_retry = some (now + min 60 (2 ^ (q.attempts + 1)))) ∧
    (∀ (times : Nat → Nat) (k : Nat), k + 1 < mr →
      (consecutiveFailures mr times (k + 1)).next_retry
        = some (times (k + 1) + min 60 (2 ^ (k + 1)))) ∧
    (∀ n : Nat, min 60 (2 ^ n) ≤ min 60 (2 ^ (n + 1))) ∧
    (∀ n : Nat, min 60 (2 ^ n) ≤ 60) ∧
    min 60 (2 ^ 1) = 2 ∧ min 60 (2 ^ 2) = 4 ∧ min 60 (2 ^ 3) = 8 ∧ min 60 (2 ^ 7) = 60 := by
  refine ⟨⟨(mark_error_below_cutoff q e hc mr now h).1, mark_error_attempts q e hc mr now,
    (mark_error_below_cutoff q e hc mr now h).2⟩, ?_, ?_, ?_, by decide, by decide, by decide,
    by decide⟩
  · intro times k hk
    unfold consecutiveFailures
    have ha := consecutiveFailures_attempts mr times k
    have := mark_error_below_cutoff (consecutiveFailures mr times k) "err" none mr
      (times (k + 1)) (by rw [ha]; exact hk)
    rw [this.2, ha]
  · intro n
    exact min_le_min (le_refl 60) (Nat.pow_le_pow_right (by decide) (Nat.le_succ n))
  · intro n
    exact min_le_left _ _

/-- Witness for C2 at a fresh entry with `max_retries = 5` and
`now = 100`: the first failure schedules `100 + 2` minutes. -/
theorem backoff_formula_witness :
    (({} : SendQueue).attempts + 1 < 5) ∧
    ((({} : SendQueue).mark_error "e" none 5 100).status = STATUS_ERROR ∧
     (({} : SendQueue).mark_error "e" none 5 100).attempts = ({} : SendQueue).attempts + 1 ∧
     (({} : SendQueue).mark_error "e" none 5 100).next_retry
       = some (100 + min 60 (2 ^ (({} : SendQueue).attempts + 1)))) ∧
    (∀ (times : Nat → Nat) (k : Nat), k + 1 < 5 →
      (consecutiveFailures 5 times (k + 1)).next_retry
        = some (times (k + 1) + min 60 (2 ^ (k + 1)))) ∧
    (∀ n : Nat, min 60 (2 ^ n) ≤ min 60 (2 ^ (n + 1))) ∧
    (∀ n : Nat, min 60 (2 ^ n) ≤ 60) ∧
    min 60 (2 ^ 1) = 2 ∧ min 60 (2 ^ 2) = 4 ∧ min 60 (2 ^ 3) = 8 ∧ min 60 (2 ^ 7) = 60 :=
  ⟨by decide, backoff_formula {} "e" none 5 100 (by decide)⟩

/-- C3: a failure that brings `attempts` up to `max_retries` makes the
entry terminal (`failed`); the due-work selection of `_process_queue`
considers exactly the `pending` rows with NULL `next_retry` and the
`error` rows whose `next_retry` has passed, so a `failed` entry — in
particular one produced by `max_retries` consecutive failures — is never
selected by any later cycle. -/
theorem terminal_cutoff (q : SendQueue) (e : String) (hc : Option Nat)
    (mr now : Nat) (h : mr ≤ q.attempts + 1) :
    ((q.mark_error e hc mr now).status = STATUS_FAILED ∧
     ∀ (t : Nat) (qs : List SendQueue), q.mark_error e hc mr now ∉ selectDue t qs) ∧
    (∀ (times : Nat → Nat), 1 ≤ mr →
      (consecutiveFailures mr times mr).status = STATUS_FAILED ∧
      ∀ (t : Nat) (qs : List SendQueue), consecutiveFailures mr times mr ∉ selectDue t qs) ∧
    (∀ (t : Nat) (q' : SendQueue), isDue t q' = true ↔
      (q'.status = STATUS_PENDING ∧ q'.next_retry = none) ∨
      (q'.status = STATUS_ERROR ∧ ∃ rt, q'.next_retry = some rt ∧ rt ≤ t)) := by
  have hfail : ∀ (q' : SendQueue), q'.status = STATUS_FAILED →
      ∀ (t : Nat) (qs : List SendQueue), q' ∉ selectDue t qs := by
    intro q' hs t qs
    refine not_mem_selectDue_of_not_due q' (fun t' => ?_) t qs
    refine isDue_false_of_status t' q' ?_ ?_ <;>
      rw [hs] <;> decide
  refine ⟨⟨mark_error_failed_status q e hc mr now h, hfail _ (mark_error_failed_status q e hc mr now h)⟩, ?_, ?_⟩
  · intro times hmr
    obtain ⟨k, hk⟩ : ∃ k, mr = k + 1 := ⟨mr - 1, (Nat.succ_pred_eq_of_pos hmr).symm⟩
    have hs : (consecutiveFailures mr times mr).status = STATUS_FAILED := by
      rw [hk]
      unfold consecutiveFailures
      exact mark_error_failed_status _ _ _ _ _
        (by rw [consecutiveFailures_attempts, ← hk])
    exact ⟨hs, hfail _ hs⟩
  · intro t q'
    cases hr : q'.next_retry with
    | none => simp [isDue, hr]
    | some rt => simp [isDue, hr]

/-! ## Claims about the schema normalizer -/

theorem normalize_no_content (decode : String → Option Json) (fs : List (String × Json))
    (dt : String) (h : fs.lookup "content" = none) :
    normalize_document decode (.obj fs) dt = normalize_decoded (.obj fs) (.obj []) dt := by
  simp only [normalize_document, Json.pyGet, Json.getD, Json.lookup, h, Option.getD_none]
  rfl

theorem normalize_undecodable (decode : String → Option Json) (fs : List (String × Json))
    (dt s : String) (h : fs.lookup "content" = some (.str s)) (hdec : decode s = none) :
    normalize_document decode (.obj fs) dt = normalize_decoded (.obj fs) (.obj []) dt := by
  simp only [normalize_document, Json.pyGet, Json.getD, Json.lookup, h, Option.getD_some,
    Bind.bind, Except.bind]
  by_cases hs : s = ""
  · subst hs; rfl
  · simp [Json.truthy, hs, hdec]

theorem normalize_with_content (decode : String → Option Json) (fs : List (String × Json))
    (dt s : String) (c : Json) (h : fs.lookup "content" = some (.str s)) (hs : s ≠ "")
    (hdec : decode s = some c) :
    normalize_document decode (.obj fs) dt = normalize_decoded (.obj fs) c dt := by
  simp only [normalize_document, Json.pyGet, Json.getD, Json.lookup, h, Option.getD_some,
    Bind.bind, Except.bind]
  simp [Json.truthy, hs, hdec]

theorem normalize_decoded_via_body (raw : Json) (cfs : List (String × Json))
    (bodyFs : List (String × Json)) (dt : String)
    (hb : cfs.lookup dt = some (.obj bodyFs)) (hh : bodyFs.lookup "HEAD" = none) :
    normalize_decoded raw (.obj cfs) dt = normalize_withHead raw (.obj bodyFs) (.obj []) dt := by
  simp only [normalize_decoded, Json.pyGet, Json.getD, Json.lookup, hb, Option.getD_some,
    Bind.bind, Except.bind, Json.isObj, hh, Option.getD_none]
  simp

/-- C7: an upstream item with no `content` field at all — or whose
`content` cannot be decoded — does not make the normalizer raise: it
returns a canonical document with an empty position list, zero totals and
currency defaulted to KZT, built from envelope fields alone. -/
theorem missing_content_best_effort (decode : String → Option Json)
    (fs : List (String × Json)) (dt : String) :
    (fs.lookup "content" = none →
      ∃ d, normalize_document decode (.obj fs) dt = .ok d ∧
        d.positions = [] ∧ d.totalAmount = .num 0 ∧ d.totalVat = .num 0 ∧
        d.totalWithVat = .num 0 ∧ d.currency = "KZT") ∧
    (∀ s, fs.lookup "content" = some (.str s) → decode s = none →
      ∃ d, normalize_document decode (.obj fs) dt = .ok d ∧
        d.positions = [] ∧ d.totalAmount = .num 0 ∧ d.totalVat = .num 0 ∧
        d.totalWithVat = .num 0 ∧ d.currency = "KZT") := by
  constructor
  · intro h
    rw [normalize_no_content decode fs dt h]
    exact ⟨_, rfl, rfl, rfl, rfl, rfl, rfl⟩
  · intro s h hdec
    rw [normalize_undecodable decode fs dt s h hdec]
    exact ⟨_, rfl, rfl, rfl, rfl, rfl, rfl⟩

/-- Witness for C7: a concrete envelope with an id and no `content`. -/
theorem missing_content_best_effort_witness :
    ([("id", Json.str "D1")].lookup "content" = none) ∧
    (∃ d, normalize_document (fun _ => none) (.obj [("id", Json.str "D1")]) "ORDER" = .ok d ∧
      d.positions = [] ∧ d.totalAmount = .num 0 ∧ d.totalVat = .num 0 ∧
      d.totalWithVat = .num 0 ∧ d.currency = "KZT") :=
  ⟨rfl, (missing_content_best_effort (fun _ => none) [("id", Json.str "D1")] "ORDER").1 rfl⟩

/-- C5 counterexample: the upstream date `31.12.2024` — in the
DD.MM.YYYY format the claim says is accepted and normalized — is passed
through verbatim by the normalizer: the output date is neither the
ISO-8601 form `2024-12-31` nor nullified. -/
theorem date_not_normalized_cex :
    ∃ d, normalize_document
        (fun _ => some (.obj [("ORDER", .obj [("DATE", .str "31.12.2024")])]))
        (.obj [("documentId", .str "D1"), ("content", .str "QQ")]) "ORDER" = .ok d ∧
      d.date = "31.12.2024" ∧ d.date ≠ "2024-12-31" ∧ d.date ≠ "" :=
  ⟨_, rfl, rfl, by decide, by decide⟩

/-- C5 amended: the normalizer performs no date parsing at all: the
upstream DATE and DELIVERYDATE values are stringified and passed through
verbatim into the canonical document, an absent date becoming the empty
string; no input format is accepted, converted, rejected or nullified.
(The HEAD-free hypothesis keeps the envelope parts deterministic; the
date fields never depend on HEAD.) -/
theorem date_passthrough (decode : String → Option Json)
    (fs cfs bodyFs : List (String × Json)) (dt s : String)
    (hc : fs.lookup "content" = some (.str s)) (hs : s ≠ "")
    (hdec : decode s = some (.obj cfs))
    (hb : cfs.lookup dt = some (.obj bodyFs))
    (hh : bodyFs.lookup "HEAD" = none) :
    ∃ d, normalize_document decode (.obj fs) dt = .ok d ∧
      d.date = pyStr ((bodyFs.lookup "DATE").getD (.str "")) ∧
      d.deliveryDate = pyStr ((bodyFs.lookup "DELIVERYDATE").getD (.str "")) := by
  rw [normalize_with_content decode fs dt s (.obj cfs) hc hs hdec,
    normalize_decoded_via_body (.obj fs) cfs bodyFs dt hb hh]
  exact ⟨_, rfl, rfl, rfl⟩

/-- Witness for C5 at a concrete document whose DATE is the arbitrary
string `not-a-date`: it lands in the output untouched. -/
theorem date_passthrough_witness :
    ∃ d, normalize_document (fun _ => some (.obj [("ORDER", .obj [("DATE", .str "not-a-date")])]))
        (.obj [("content", .str "QQ")]) "ORDER" = .ok d ∧
      d.date = pyStr (([(("DATE" : String), Json.str "not-a-date")].lookup "DATE").getD (.str "")) ∧
      d.deliveryDate = pyStr (([(("DATE" : String), Json.str "not-a-date")].lookup "DELIVERYDATE").getD (.str "")) :=
  date_passthrough (fun _ => some (.obj [("ORDER", .obj [("DATE", .str "not-a-date")])]))
    [("content", .str "QQ")] [("ORDER", .obj [("DATE", .str "not-a-date")])]
    [("DATE", .str "not-a-date")] "ORDER" "QQ" rfl (by decide) rfl rfl rfl

/-- C9 counterexample: a position carrying only `DELIVEREDQUANTITY = 7`
normalizes to quantity 0 — the implementation has no `deliveredQuantity`
fallback, while the spec fallback list would give 7. -/
theorem quantity_no_delivered_fallback_cex :
    (∃ d, normalize_document
        (fun _ => some (.obj [("ORDER", .obj [("HEAD", .obj [("POSITION",
          .arr [.obj [("DELIVEREDQUANTITY", .num 7)]])])])]))
        (.obj [("id", .str "D1"), ("content", .str "QQ")]) "ORDER" = .ok d ∧
      d.positions.map Position.quantity = [.num 0]) ∧
    specQuantity (.obj [("DELIVEREDQUANTITY", .num 7)]) = .num 7 ∧
    Json.num 0 ≠ Json.num 7 :=
  ⟨⟨_, rfl, rfl⟩, rfl, by simp⟩

/-- C9 amended: the normalized quantity of a line item is the upstream
`ORDEREDQUANTITY` when the key is present and 0 otherwise — there is no
`deliveredQuantity` fallback; the two-step fallback the spec gives as an
example exists for the unit price (`ORDERPRICE`, else `PRICEWITHVAT`,
else 0). -/
theorem quantity_ordered_or_zero (fs : List (String × Json)) :
    ∃ pos, normalizePosition (.obj fs) = .ok pos ∧
      pos.quantity = (Json.obj fs).getD "ORDEREDQUANTITY" (.num 0) ∧
      pos.unitPrice = (Json.obj fs).getD "ORDERPRICE" ((Json.obj fs).getD "PRICEWITHVAT" (.num 0)) :=
  ⟨_, rfl, rfl, rfl⟩

/-- Witness for C3: two failures with `max_retries = 2` leave the entry
`failed`, and the characterization of the due predicate holds. -/
theorem terminal_cutoff_witness :
    (2 ≤ ({ attempts := 1 } : SendQueue).attempts + 1) ∧
    ((({ attempts := 1 } : SendQueue).mark_error "e" none 2 100).status = STATUS_FAILED ∧
     ∀ (t : Nat) (qs : List SendQueue),
       ({ attempts := 1 } : SendQueue).mark_error "e" none 2 100 ∉ selectDue t qs) ∧
    (∀ (times : Nat → Nat), 1 ≤ 2 →
      (consecutiveFailures 2 times 2).status = STATUS_FAILED ∧
      ∀ (t : Nat) (qs : List SendQueue), consecutiveFailures 2 times 2 ∉ selectDue t qs) ∧
    (∀ (t : Nat) (q' : SendQueue), isDue t q' = true ↔
      (q'.status = STATUS_PENDING ∧ q'.next_retry = none) ∨
      (q'.status = STATUS_ERROR ∧ ∃ rt, q'.next_retry = some rt ∧ rt ≤ t)) :=
  ⟨by decide, terminal_cutoff { attempts := 1 } "e" none 2 100 (by decide)⟩

/-! ## Shape lemmas for `process_document` -/

theorem process_document_cached_shape (templates : List XmlTemplate)
    (send : String → String → Except String (Nat × String)) (mr now : Nat) (today : String)
    (doc : EdiDocumentRow) (q : SendQueue) (h : doc.xml_content ≠ "") :
    (process_document templates send mr now today doc q).rendered = false ∧
    (process_document templates send mr now today doc q).doc = doc ∧
    (process_document templates send mr now today doc q).sent_payload = some doc.xml_content := by
  unfold process_document
  rw [if_neg h]
  dsimp only
  cases hsend : send doc.xml_content doc.doc_type with
  | error e => exact ⟨rfl, rfl, rfl⟩
  | ok pr =>
    obtain ⟨code, resp⟩ := pr
    by_cases h2 : 200 ≤ code ∧ code < 300
    · simp [h2]
    · simp [h2]

theorem process_document_fresh_shape (templates : List XmlTemplate)
    (send : String → String → Except String (Nat × String)) (mr now : Nat) (today : String)
    (doc : EdiDocumentRow) (q : SendQueue) (xml : String) (h0 : doc.xml_content = "")
    (hb : build_xml templates doc.doc_type doc.raw_json today = .ok xml) :
    (process_document templates send mr now today doc q).rendered = true ∧
    (process_document templates send mr now today doc q).doc = { doc with xml_content := xml } ∧
    (process_document templates send mr now today doc q).sent_payload = some xml := by
  unfold process_document
  rw [if_pos h0, hb]
  dsimp only
  cases hsend : send xml doc.doc_type with
  | error e => exact ⟨rfl, rfl, rfl⟩
  | ok pr =>
    obtain ⟨code, resp⟩ := pr
    by_cases h2 : 200 ≤ code ∧ code < 300
    · simp [h2]
    · simp [h2]

theorem process_document_render_error (templates : List XmlTemplate)
    (send : String → String → Except String (Nat × String)) (mr now : Nat) (today : String)
    (doc : EdiDocumentRow) (q : SendQueue) (e : String) (h0 : doc.xml_content = "")
    (hb : build_xml templates doc.doc_type doc.raw_json today = .error e) :
    process_document templates send mr now today doc q =
      { doc := doc, entry := q.mark_error ("Ошибка генерации XML: " ++ e) none mr now,
        notices := [], rendered := true, sent_payload := none, success := false } := by
  unfold process_document
  rw [if_pos h0, hb]

theorem process_document_send_error (templates : List XmlTemplate) (mr now : Nat)
    (today : String) (doc : EdiDocumentRow) (q : SendQueue) (e : String)
    (h : doc.xml_content ≠ "") :
    process_document templates (fun _ _ => .error e) mr now today doc q =
      { doc := doc, entry := q.mark_error ("Сетевая ошибка: " ++ e) none mr now,
        notices := [.errorNote doc.doc_type doc.number ("Сетевая ошибка: " ++ e)],
        rendered := false, sent_payload := some doc.xml_content, success := false } := by
  unfold process_document
  rw [if_neg h]

theorem process_document_non2xx (templates : List XmlTemplate) (mr now : Nat)
    (today : String) (doc : EdiDocumentRow) (q : SendQueue) (code : Nat) (resp : String)
    (h : doc.xml_content ≠ "") (hc : ¬(200 ≤ code ∧ code < 300)) :
    process_document templates (fun _ _ => .ok (code, resp)) mr now today doc q =
      { doc := doc
        entry := q.mark_error ("HTTP " ++ toString code ++ ": " ++ resp.take 300) (some code) mr now
        notices :=
          if (q.mark_error ("HTTP " ++ toString code ++ ": " ++ resp.take 300) (some code) mr now).status
              == STATUS_FAILED then
            [.failedNote doc.doc_type doc.number
              (q.mark_error ("HTTP " ++ toString code ++ ": " ++ resp.take 300) (some code) mr now).attempts]
          else
            [.errorNote doc.doc_type doc.number ("HTTP " ++ toString code ++ ": " ++ resp.take 300)]
        rendered := false
        sent_payload := some doc.xml_content
        success := false } := by
  unfold process_document
  rw [if_neg h]
  dsimp only
  rw [if_neg hc]

/-! ## Claims about ingestion, delivery and the connector -/

/-- C1: ingesting an item whose `docrobot_id` the store already holds is
a no-op — no document row, no queue entry, and every existing row with
its delivery state is left exactly as it was; ingesting a fresh item
twice stores exactly one row (document plus queue entry) and the second
pass changes nothing. -/
theorem idempotent_ingestion (db : List DbRow) (n : NormalizedDoc)
    (hid : n.docrobotId ≠ "") :
    poll_ingest_one (poll_ingest_one db n) n = poll_ingest_one db n ∧
    ((∃ r ∈ db, r.doc.docrobot_id = n.docrobotId) → poll_ingest_one db n = db) ∧
    (countId db n.docrobotId = 0 →
      poll_ingest_one db n = db ++ [⟨mkDocRow n, {}⟩] ∧
      countId (poll_ingest_one db n) n.docrobotId = 1) := by
  have hdec : decide (n.docrobotId = "") = false := decide_eq_false hid
  have hself : ((mkDocRow n).docrobot_id == n.docrobotId) = true := by
    simp [mkDocRow]
  refine ⟨?_, ?_, ?_⟩
  · by_cases hex : db.any (fun r => r.doc.docrobot_id == n.docrobotId) = true
    · simp [poll_ingest_one, hdec, hex]
    · rw [Bool.not_eq_true] at hex
      simp only [poll_ingest_one, hdec, hex, Bool.false_or, Bool.or_false, if_neg, if_false,
        Bool.false_eq_true, not_false_eq_true]
      simp [List.any_append, hself, mkDocRow]
  · rintro ⟨r, hr, heq⟩
    have : db.any (fun r => r.doc.docrobot_id == n.docrobotId) = true :=
      List.any_eq_true.mpr ⟨r, hr, by simp [heq]⟩
    simp [poll_ingest_one, hdec, this]
  · intro h0
    have hfilter : db.filter (fun r => r.doc.docrobot_id == n.docrobotId) = [] :=
      List.length_eq_zero.mp h0
    have hany : db.any (fun r => r.doc.docrobot_id == n.docrobotId) = false := by
      cases hAny : db.any (fun r => r.doc.docrobot_id == n.docrobotId) with
      | false => rfl
      | true =>
        obtain ⟨r, hr, hp⟩ := List.any_eq_true.mp hAny
        have : r ∈ db.filter (fun x => x.doc.docrobot_id == n.docrobotId) :=
          List.mem_filter.mpr ⟨hr, hp⟩
        rw [hfilter] at this
        cases this
    constructor
    · simp [poll_ingest_one, hdec, hany]
    · simp [poll_ingest_one, hdec, hany, countId, List.filter_append, hfilter, hself]

/-- Witness for C1: ingesting one concrete document into an empty store
twice yields one row, and the second pass is a no-op. -/
theorem idempotent_ingestion_witness :
    (({ docrobotId := "A1", docType := "ORDER", number := "1", date := "",
        deliveryDate := "", shipmentDate := "", currency := "KZT", supplierGln := "",
        buyerGln := "", supplierName := .str "", buyerName := .str "",
        deliveryAddress := .str "", totalAmount := .num 0, totalVat := .num 0,
        totalWithVat := .num 0, positions := [], raw := .obj [] } : NormalizedDoc).docrobotId ≠ "") ∧
    (poll_ingest_one (poll_ingest_one []
        { docrobotId := "A1", docType := "ORDER", number := "1", date := "",
          deliveryDate := "", shipmentDate := "", currency := "KZT", supplierGln := "",
          buyerGln := "", supplierName := .str "", buyerName := .str "",
          deliveryAddress := .str "", totalAmount := .num 0, totalVat := .num 0,
          totalWithVat := .num 0, positions := [], raw := .obj [] })
        { docrobotId := "A1", docType := "ORDER", number := "1", date := "",
          deliveryDate := "", shipmentDate := "", currency := "KZT", supplierGln := "",
          buyerGln := "", supplierName := .str "", buyerName := .str "",
          deliveryAddress := .str "", totalAmount := .num 0, totalVat := .num 0,
          totalWithVat := .num 0, positions := [], raw := .obj [] }
      = poll_ingest_one []
        { docrobotId := "A1", docType := "ORDER", number := "1", date := "",
          deliveryDate := "", shipmentDate := "", currency := "KZT", supplierGln := "",
          buyerGln := "", supplierName := .str "", buyerName := .str "",
          deliveryAddress := .str "", totalAmount := .num 0, totalVat := .num 0,
          totalWithVat := .num 0, positions := [], raw := .obj [] }) :=
  ⟨by decide,
    (idempotent_ingestion []
      { docrobotId := "A1", docType := "ORDER", number := "1", date := "",
        deliveryDate := "", shipmentDate := "", currency := "KZT", supplierGln := "",
        buyerGln := "", supplierName := .str "", buyerName := .str "",
        deliveryAddress := .str "", totalAmount := .num 0, totalVat := .num 0,
        totalWithVat := .num 0, positions := [], raw := .obj [] }
      (by decide)).1⟩

/-- C8: a 2xx answer from the 1C sink makes `process_document` call
`mark_sent`: the entry becomes `sent`, `sent_at` and the response body
are recorded and `last_error` is cleared, while `attempts` is left
unchanged; a `sent` entry is never selected as due work by any later
cycle. -/
theorem sent_on_2xx (templates : List XmlTemplate) (resp : String) (code : Nat)
    (mr now : Nat) (today : String) (doc : EdiDocumentRow) (q : SendQueue)
    (hxml : doc.xml_content ≠ "") (hlo : 200 ≤ code) (hhi : code < 300) :
    (process_document templates (fun _ _ => .ok (code, resp)) mr now today doc q).entry
      = q.mark_sent resp code now ∧
    (process_document templates (fun _ _ => .ok (code, resp)) mr now today doc q).success = true ∧
    (q.mark_sent resp code now).attempts = q.attempts ∧
    (q.mark_sent resp code now).status = STATUS_SENT ∧
    (q.mark_sent resp code now).sent_at = some now ∧
    (q.mark_sent resp code now).response = resp ∧
    (q.mark_sent resp code now).last_error = "" ∧
    ∀ (t : Nat) (qs : List SendQueue), q.mark_sent resp code now ∉ selectDue t qs := by
  have h2 : 200 ≤ code ∧ code < 300 := ⟨hlo, hhi⟩
  refine ⟨?_, ?_, rfl, rfl, rfl, rfl, rfl, ?_⟩
  · simp [process_document, hxml, h2]
  · simp [process_document, hxml, h2]
  · refine not_mem_selectDue_of_not_due (q.mark_sent resp code now) (fun t => ?_)
    exact isDue_false_of_status t (q.mark_sent resp code now) rfl rfl

/-- Witness for C8 at Scenario C of the spec: success on the 4th attempt
leaves `attempts` at 3. -/
theorem sent_on_2xx_witness :
    (({ docrobot_id := "D1", doc_type := "ORDER", xml_content := "<x/>" } : EdiDocumentRow).xml_content ≠ "") ∧
    (200 ≤ 200) ∧ (200 < 300) ∧
    ((process_document [] (fun _ _ => .ok (200, "ok")) 5 100 "d"
        { docrobot_id := "D1", doc_type := "ORDER", xml_content := "<x/>" }
        { attempts := 3 }).entry
      = ({ attempts := 3 } : SendQueue).mark_sent "ok" 200 100 ∧
    (process_document [] (fun _ _ => .ok (200, "ok")) 5 100 "d"
        { docrobot_id := "D1", doc_type := "ORDER", xml_content := "<x/>" }
        { attempts := 3 }).success = true ∧
    (({ attempts := 3 } : SendQueue).mark_sent "ok" 200 100).attempts
      = ({ attempts := 3 } : SendQueue).attempts ∧
    (({ attempts := 3 } : SendQueue).mark_sent "ok" 200 100).status = STATUS_SENT ∧
    (({ attempts := 3 } : SendQueue).mark_sent "ok" 200 100).sent_at = some 100 ∧
    (({ attempts := 3 } : SendQueue).mark_sent "ok" 200 100).response = "ok" ∧
    (({ attempts := 3 } : SendQueue).mark_sent "ok" 200 100).last_error = "" ∧
    ∀ (t : Nat) (qs : List SendQueue),
      ({ attempts := 3 } : SendQueue).mark_sent "ok" 200 100 ∉ selectDue t qs) :=
  ⟨by decide, by decide, by decide,
    sent_on_2xx [] "ok" 200 5 100 "d"
      { docrobot_id := "D1", doc_type := "ORDER", xml_content := "<x/>" }
      { attempts := 3 } (by decide) (by decide) (by decide)⟩

/-- C6 counterexample: against a server that answers 401 to every
request, one `_get` call issues 6 GETs — each of the three transport
attempts refreshes the token once and retries once, and the second
consecutive 401 of an attempt is caught by the transient-retry loop
rather than propagating at once, so the call does not stop at the 2 GETs
the claim implies. -/
theorem second_401_retried_cex :
    (docrobotGet (fun _ => some 401) none 0).gets = 6 ∧
    (docrobotGet (fun _ => some 401) none 0).token_fetches = 4 ∧
    (docrobotGet (fun _ => some 401) none 0).result = .error "HTTP 401" ∧
    (docrobotGet (fun _ => some 401) none 0).gets ≠ 2 :=
  ⟨rfl, rfl, rfl, by decide⟩

/-- C6 amended: the token is cached across requests (a call entered with
a cached token and a 200 answer performs no token fetch); within each
transport attempt a 401 triggers exactly one token refresh and exactly
one retry of the same request, and any other status finishes the attempt
with a single GET; but a second consecutive 401 raises an HTTP error
that the transient-retry loop treats like any failure, so the call
performs up to 3 transport attempts (6 GETs against an all-401 server)
before the 401 propagates to the caller. -/
theorem auth_refresh_behaviour :
    (∀ (oracle : Nat → Option Nat) (t tc : Nat), oracle 0 = some 200 →
      docrobotGet oracle (some t) tc = ⟨1, tc, some t, .ok 200⟩) ∧
    (∀ (oracle : Nat → Option Nat) (gi t tc : Nat), oracle gi = some 401 →
      (getAttempt oracle gi (some t) tc).1 = gi + 2 ∧
      (getAttempt oracle gi (some t) tc).2.2.1 = tc + 1) ∧
    (∀ (oracle : Nat → Option Nat) (gi : Nat) (token : Option Nat) (tc c : Nat),
      oracle gi = some c → c ≠ 401 → (getAttempt oracle gi token tc).1 = gi + 1) ∧
    (docrobotGet (fun _ => some 401) none 0).gets = 6 ∧
    (docrobotGet (fun _ => some 401) none 0).result = .error "HTTP 401" := by
  refine ⟨?_, ?_, ?_, rfl, rfl⟩
  · intro oracle t tc h
    simp [docrobotGet, getLoop, getAttempt, h]
  · intro oracle gi t tc h
    constructor
    · simp only [getAttempt, h]
      cases oracle (gi + 1) with
      | none => simp
      | some c2 =>
        split
        · split <;> first | rfl | (split <;> rfl)
        · exact absurd trivial (by assumption)
    · simp only [getAttempt, h]
      cases oracle (gi + 1) with
      | none => simp
      | some c2 =>
        split
        · split <;> first | rfl | (split <;> rfl)
        · exact absurd trivial (by assumption)
  · intro oracle gi token tc c h hne
    cases token with
    | none =>
      simp only [getAttempt, h, if_neg hne]
      split <;> rfl
    | some t =>
      simp only [getAttempt, h, if_neg hne]
      split <;> rfl

/-- Witness for C6 at concrete oracles: a cached-token 200 call, a
401-then-retry attempt, and a plain 500 attempt. -/
theorem auth_refresh_behaviour_witness :
    docrobotGet (fun _ => some 200) (some 7) 1 = ⟨1, 1, some 7, .ok 200⟩ ∧
    ((getAttempt (fun _ => some 401) 0 (some 5) 2).1 = 0 + 2 ∧
     (getAttempt (fun _ => some 401) 0 (some 5) 2).2.2.1 = 2 + 1) ∧
    (getAttempt (fun _ => some 500) 0 none 0).1 = 0 + 1 :=
  ⟨auth_refresh_behaviour.1 (fun _ => some 200) 7 1 rfl,
    auth_refresh_behaviour.2.1 (fun _ => some 401) 0 5 2 rfl,
    auth_refresh_behaviour.2.2.1 (fun _ => some 500) 0 none 0 500 rfl (by decide)⟩

/-- C4 counterexample: an active ORDER template whose body renders to
the empty string. The first delivery attempt renders and stores the
empty payload; because the cache check is `if not doc.xml_content`, the
second attempt — after the operator switched the template body to `X` —
renders again and sends different bytes. Rendering thus happens twice
for one document, against the at-most-once claim. -/
theorem rerendered_after_empty_cache_cex :
    ((process_document [{ doc_type := "ORDER", body_tpl := "" }]
        (fun _ _ => .ok (500, "boom")) 5 100 "d"
        { docrobot_id := "D1", doc_type := "ORDER" } {}).rendered = true) ∧
    ((process_document [{ doc_type := "ORDER", body_tpl := "" }]
        (fun _ _ => .ok (500, "boom")) 5 100 "d"
        { docrobot_id := "D1", doc_type := "ORDER" } {}).sent_payload = some "") ∧
    ((process_document [{ doc_type := "ORDER", body_tpl := "X" }]
        (fun _ _ => .ok (500, "boom")) 5 101 "d"
        (process_document [{ doc_type := "ORDER", body_tpl := "" }]
          (fun _ _ => .ok (500, "boom")) 5 100 "d"
          { docrobot_id := "D1", doc_type := "ORDER" } {}).doc
        (process_document [{ doc_type := "ORDER", body_tpl := "" }]
          (fun _ _ => .ok (500, "boom")) 5 100 "d"
          { docrobot_id := "D1", doc_type := "ORDER" } {}).entry).rendered = true) ∧
    ((process_document [{ doc_type := "ORDER", body_tpl := "X" }]
        (fun _ _ => .ok (500, "boom")) 5 101 "d"
        (process_document [{ doc_type := "ORDER", body_tpl := "" }]
          (fun _ _ => .ok (500, "boom")) 5 100 "d"
          { docrobot_id := "D1", doc_type := "ORDER" } {}).doc
        (process_document [{ doc_type := "ORDER", body_tpl := "" }]
          (fun _ _ => .ok (500, "boom")) 5 100 "d"
          { docrobot_id := "D1", doc_type := "ORDER" } {}).entry).sent_payload = some "X") ∧
    (some "" ≠ some "X") :=
  ⟨rfl, rfl, rfl, rfl, by decide⟩

/-- C4 amended: rendering is a pure function of (template store, document
data), so re-rendering the same document with the same template is
byte-identical; once a NON-EMPTY rendered payload has been cached in
`xml_content`, every later delivery attempt reuses it verbatim and never
re-renders, whatever the template store has become — only an empty
rendered payload defeats the cache check and is rendered again. -/
theorem cached_render_reused (templates : List XmlTemplate)
    (send : String → String → Except String (Nat × String)) (mr now : Nat) (today : String)
    (doc : EdiDocumentRow) (q : SendQueue) (h : doc.xml_content ≠ "") :
    (process_document templates send mr now today doc q).rendered = false ∧
    (process_document templates send mr now today doc q).doc.xml_content = doc.xml_content ∧
    (process_document templates send mr now today doc q).sent_payload = some doc.xml_content ∧
    (∀ (templates2 : List XmlTemplate) send2 mr2 now2 today2 (q2 : SendQueue),
      (process_document templates2 send2 mr2 now2 today2 doc q2).rendered = false ∧
      (process_document templates2 send2 mr2 now2 today2 doc q2).sent_payload
        = some doc.xml_content) ∧
    (∀ (doc0 : EdiDocumentRow) (xml : String), doc0.xml_content = "" → xml ≠ "" →
      build_xml templates doc0.doc_type doc0.raw_json today = .ok xml →
      (process_document templates send mr now today doc0 q).rendered = true ∧
      (process_document templates send mr now today doc0 q).doc.xml_content = xml ∧
      ∀ (templates2 : List XmlTemplate) send2 mr2 now2 today2 (q2 : SendQueue),
        (process_document templates2 send2 mr2 now2 today2
          (process_document templates send mr now today doc0 q).doc q2).rendered = false ∧
        (process_document templates2 send2 mr2 now2 today2
          (process_document templates send mr now today doc0 q).doc q2).sent_payload
          = some xml) := by
  obtain ⟨hr, hd, hp⟩ := process_document_cached_shape templates send mr now today doc q h
  refine ⟨hr, by rw [hd], hp, ?_, ?_⟩
  · intro templates2 send2 mr2 now2 today2 q2
    obtain ⟨hr2, _, hp2⟩ := process_document_cached_shape templates2 send2 mr2 now2 today2 doc q2 h
    exact ⟨hr2, hp2⟩
  · intro doc0 xml h0 hxml hb
    obtain ⟨fr, fd, fp⟩ := process_document_fresh_shape templates send mr now today doc0 q xml h0 hb
    have hx : (process_document templates send mr now today doc0 q).doc.xml_content = xml := by
      rw [fd]
    refine ⟨fr, hx, ?_⟩
    intro templates2 send2 mr2 now2 today2 q2
    have hne : (process_document templates send mr now today doc0 q).doc.xml_content ≠ "" := by
      rw [hx]; exact hxml
    obtain ⟨gr, _, gp⟩ := process_document_cached_shape templates2 send2 mr2 now2 today2
      (process_document templates send mr now today doc0 q).doc q2 hne
    rw [hx] at gp
    exact ⟨gr, gp⟩

/-- Witness for C4 at a document with a cached non-empty payload: the
attempt does not re-render and sends the cached bytes. -/
theorem cached_render_reused_witness :
    (({ docrobot_id := "D1", doc_type := "ORDER", xml_content := "<x/>" } : EdiDocumentRow).xml_content ≠ "") ∧
    ((process_document [] (fun _ _ => .error "conn") 5 100 "d"
        { docrobot_id := "D1", doc_type := "ORDER", xml_content := "<x/>" } {}).rendered = false ∧
     (process_document [] (fun _ _ => .error "conn") 5 100 "d"
        { docrobot_id := "D1", doc_type := "ORDER", xml_content := "<x/>" } {}).doc.xml_content
        = ({ docrobot_id := "D1", doc_type := "ORDER", xml_content := "<x/>" } : EdiDocumentRow).xml_content ∧
     (process_document [] (fun _ _ => .error "conn") 5 100 "d"
        { docrobot_id := "D1", doc_type := "ORDER", xml_content := "<x/>" } {}).sent_payload
        = some ({ docrobot_id := "D1", doc_type := "ORDER", xml_content := "<x/>" } : EdiDocumentRow).xml_content) :=
  ⟨by decide,
    ⟨(cached_render_reused [] (fun _ _ => .error "conn") 5 100 "d"
      { docrobot_id := "D1", doc_type := "ORDER", xml_content := "<x/>" } {} (by decide)).1,
     (cached_render_reused [] (fun _ _ => .error "conn") 5 100 "d"
      { docrobot_id := "D1", doc_type := "ORDER", xml_content := "<x/>" } {} (by decide)).2.1,
     (cached_render_reused [] (fun _ _ => .error "conn") 5 100 "d"
      { docrobot_id := "D1", doc_type := "ORDER", xml_content := "<x/>" } {} (by decide)).2.2.1⟩⟩

/-- C10 counterexample: a document type with no template and no default
builder makes `build_xml` raise; `process_document` records a delivery
failure (`mark_error`, retry scheduled) but sends NO notification at all,
against the every-delivery-failure claim. -/
theorem encoding_failure_unnotified_cex :
    (process_document [] (fun _ _ => .ok (200, "ok")) 5 100 "d"
      { docrobot_id := "D1", doc_type := "XXX", number := "7" } {}).success = false ∧
    (process_document [] (fun _ _ => .ok (200, "ok")) 5 100 "d"
      { docrobot_id := "D1", doc_type := "XXX", number := "7" } {}).entry.status = STATUS_ERROR ∧
    (process_document [] (fun _ _ => .ok (200, "ok")) 5 100 "d"
      { docrobot_id := "D1", doc_type := "XXX", number := "7" } {}).entry.attempts = 1 ∧
    (process_document [] (fun _ _ => .ok (200, "ok")) 5 100 "d"
      { docrobot_id := "D1", doc_type := "XXX", number := "7" } {}).entry.next_retry = some 102 ∧
    (process_document [] (fun _ _ => .ok (200, "ok")) 5 100 "d"
      { docrobot_id := "D1", doc_type := "XXX", number := "7" } {}).notices = [] :=
  ⟨rfl, rfl, rfl, rfl, rfl⟩

/-- C10 amended: the notifier is invoked with (docType, number, errText)
on network failures and non-2xx responses, and with (docType, number,
attemptCount) when the entry reaches `failed` via a non-2xx response; an
encoding/template failure is recorded as a delivery failure but sends no
notification, and a `failed` reached via a network exception sends the
error notification, not the terminal one. The notifier channel itself is
fire-and-forget (`TelegramNotifier.send` swallows transport errors), so
messages are pure data here. -/
theorem notifier_paths (mr now : Nat) (today : String) (doc : EdiDocumentRow) (q : SendQueue) :
    (∀ (templates : List XmlTemplate) send e, doc.xml_content = "" →
      build_xml templates doc.doc_type doc.raw_json today = .error e →
      (process_document templates send mr now today doc q).notices = [] ∧
      (process_document templates send mr now today doc q).entry
        = q.mark_error ("Ошибка генерации XML: " ++ e) none mr now ∧
      (process_document templates send mr now today doc q).success = false) ∧
    (∀ (templates : List XmlTemplate) e, doc.xml_content ≠ "" →
      (process_document templates (fun _ _ => .error e) mr now today doc q).notices
        = [.errorNote doc.doc_type doc.number ("Сетевая ошибка: " ++ e)]) ∧
    (∀ (templates : List XmlTemplate) (code : Nat) (resp : String),
      doc.xml_content ≠ "" → ¬(200 ≤ code ∧ code < 300) →
      (process_document templates (fun _ _ => .ok (code, resp)) mr now today doc q).notices =
        (if mr ≤ q.attempts + 1 then
          [.failedNote doc.doc_type doc.number (q.attempts + 1)]
        else
          [.errorNote doc.doc_type doc.number
            ("HTTP " ++ toString code ++ ": " ++ resp.take 300)])) := by
  refine ⟨?_, ?_, ?_⟩
  · intro templates send e h0 hb
    rw [process_document_render_error templates send mr now today doc q e h0 hb]
    exact ⟨rfl, rfl, rfl⟩
  · intro templates e h
    rw [process_document_send_error templates mr now today doc q e h]
  · intro templates code resp h hc
    rw [process_document_non2xx templates mr now today doc q code resp h hc]
    by_cases hm : mr ≤ q.attempts + 1
    · have hs := mark_error_failed_status q
        ("HTTP " ++ toString code ++ ": " ++ resp.take 300) (some code) mr now hm
      have ha := mark_error_attempts q
        ("HTTP " ++ toString code ++ ": " ++ resp.take 300) (some code) mr now
      simp [hs, ha, hm, STATUS_FAILED]
    · have hs := (mark_error_below_cutoff q
        ("HTTP " ++ toString code ++ ": " ++ resp.take 300) (some code) mr now
        (Nat.not_le.mp hm)).1
      simp [hs, hm, STATUS_ERROR, STATUS_FAILED]

/-- Witness for C10 at concrete runs of all three failure paths: an
unknown-type encoding failure (no notification), a network failure (error
notification), and a 503 that exhausts the retries (terminal
notification). -/
theorem notifier_paths_witness :
    ((process_document [] (fun _ _ => .ok (200, "ok")) 5 100 "d"
        { docrobot_id := "D1", doc_type := "XXX", number := "7" } {}).notices = [] ∧
     (process_document [] (fun _ _ => .ok (200, "ok")) 5 100 "d"
        { docrobot_id := "D1", doc_type := "XXX", number := "7" } {}).entry
        = ({} : SendQueue).mark_error
            ("Ошибка генерации XML: " ++ "ValueError: Неизвестный тип документа: XXX") none 5 100 ∧
     (process_document [] (fun _ _ => .ok (200, "ok")) 5 100 "d"
        { docrobot_id := "D1", doc_type := "XXX", number := "7" } {}).success = false) ∧
    ((process_document [] (fun _ _ => .error "conn") 5 100 "d"
        { docrobot_id := "D1", doc_type := "ORDER", number := "7", xml_content := "<x/>" } {}).notices
      = [.errorNote "ORDER" "7" ("Сетевая ошибка: " ++ "conn")]) ∧
    ((process_document [] (fun _ _ => .ok (503, "unavail")) 5 100 "d"
        { docrobot_id := "D1", doc_type := "ORDER", number := "7", xml_content := "<x/>" }
        { attempts := 4 }).notices
      = (if 5 ≤ ({ attempts := 4 } : SendQueue).attempts + 1 then
          [Notice.failedNote "ORDER" "7" (({ attempts := 4 } : SendQueue).attempts + 1)]
        else
          [Notice.errorNote "ORDER" "7"
            ("HTTP " ++ toString 503 ++ ": " ++ ("unavail" : String).take 300)])) :=
  ⟨(notifier_paths 5 100 "d" { docrobot_id := "D1", doc_type := "XXX", number := "7" } {}).1
      [] (fun _ _ => .ok (200, "ok")) "ValueError: Неизвестный тип документа: XXX" rfl rfl,
   (notifier_paths 5 100 "d"
      { docrobot_id := "D1", doc_type := "ORDER", number := "7", xml_content := "<x/>" } {}).2.1
      [] "conn" (by decide),
   (notifier_paths 5 100 "d"
      { docrobot_id := "D1", doc_type := "ORDER", number := "7", xml_content := "<x/>" }
      { attempts := 4 }).2.2
      [] 503 "unavail" (by decide) (by decide)⟩

end Docurobot
